import Mathlib

set_option maxRecDepth 8000

/-!
Verification of the NPS survey-analysis pipeline (gen_kano_data.py,
gen_lojistas_js_final.py, gen_nps_matrix_final.py).

Scores are embedded as exact rationals (`ℚ`).  Python's `round(x, d)` is
modelled as round-half-up on rationals (`round (x * 10^d) / 10^d`); none of
the concrete values appearing in the claims sits on a rounding tie, so the
half-up/half-even difference is immaterial for every statement below.
Pandas `NaN` results (empty groups, undefined correlation) are modelled with
`Option`/`Bool` flags, mirroring the fact that every comparison against a
`NaN` float evaluates to false.  The Pearson correlation `r` of a paired
sample involves a square root; since every use of `r` in the source is either
a comparison against a rational threshold or `round(r, 3)`, both of which are
decidable from the rational covariance/variance data, the embedding keeps the
exact numerator `corrNum` and the variance product and decides those uses by
sign-and-square comparisons (`leDivSqrt`), staying fully computable.
-/

namespace NpsPipeline

/-! ## Shared numeric helpers -/

/-- `round(q, d)` from Python, as round-half-up on `ℚ`. -/
def roundTo (d : ℕ) (q : ℚ) : ℚ := ((round (q * (10 ^ d : ℚ)) : ℤ) : ℚ) / (10 ^ d : ℚ)

/-- `(notes >= 9).sum()`: promoter count (same expression in all three
pipelines). -/
def countProm (notes : List ℚ) : ℕ := notes.countP (fun x => decide (9 ≤ x))

/-- `((notes >= 7) & (notes <= 8)).sum()`: passive count. -/
def countPas (notes : List ℚ) : ℕ := notes.countP (fun x => decide (7 ≤ x) && decide (x ≤ 8))

/-- `(notes <= 6).sum()`: detractor count. -/
def countDet (notes : List ℚ) : ℕ := notes.countP (fun x => decide (x ≤ 6))

/-- `notes.max()`; the fold default `0` only matters for the empty list, where
the source's `NaN > 10` comparison is false exactly as `0 > 10` is. -/
def maxNote (notes : List ℚ) : ℚ := notes.foldr max 0

/-- `if notes.max() > 10: notes = notes / 10` — the score normalizer, written
verbatim in gen_kano_data.py lines 38-39, gen_lojistas_js_final.py lines
38-39 and 113-114, and gen_nps_matrix_final.py line 46. -/
def normalizeNotes (notes : List ℚ) : List ℚ :=
  if 10 < maxNote notes then notes.map (fun x => x / 10) else notes

/-- `sum(scores) / len(scores)`: the arithmetic mean (`Series.mean()`). -/
def meanQ (l : List ℚ) : ℚ := l.sum / (l.length : ℚ)

/-! ## gen_lojistas_js_final.py — `calculate_metrics` (lines 32-57) -/

/-- The record returned by `calculate_metrics`; fields in source order:
period, nps, total, prom_pct, pass_pct, det_pct, prom_abs, pass_abs,
det_abs. -/
structure Metrics where
  period : String
  nps : ℚ
  total : ℕ
  prom_pct : ℚ
  pass_pct : ℚ
  det_pct : ℚ
  prom_abs : ℕ
  pass_abs : ℕ
  det_abs : ℕ
deriving DecidableEq, Repr

/-- gen_lojistas_js_final.py `calculate_metrics(df_sub, period_name)`, with the
sub-dataframe abstracted to its list of `Nota` values.  Returns `none` for the
empty sample (`if total == 0: return None`). -/
def calculate_metrics (notes : List ℚ) (period_name : String) : Option Metrics :=
  if notes.length = 0 then none
  else
    let notes2 := normalizeNotes notes
    let total : ℚ := (notes.length : ℚ)
    let prom := countProm notes2
    let passives := countPas notes2
    let det := countDet notes2
    some ⟨period_name,
      roundTo 1 ((((prom : ℚ) - (det : ℚ)) / total) * 100),
      notes.length,
      roundTo 1 (((prom : ℚ) / total) * 100),
      roundTo 1 (((passives : ℚ) / total) * 100),
      roundTo 1 (((det : ℚ) / total) * 100),
      prom, passives, det⟩

/-! ## gen_nps_matrix_final.py — `get_metrics` (lines 39-60) -/

/-- The Series returned by `get_metrics`; fields N, Det, Neu, Prom, NPS.
`NPS = none` models the `np.nan` of the empty group. -/
structure MRow where
  N : ℕ
  Det : ℕ
  Neu : ℕ
  Prom : ℕ
  NPS : Option ℚ
deriving DecidableEq, Repr

/-- gen_nps_matrix_final.py `get_metrics(x)`, with the group dataframe
abstracted to its list of `Nota` values. -/
def get_metrics (notes : List ℚ) : MRow :=
  if notes.length = 0 then ⟨0, 0, 0, 0, none⟩
  else
    let notes2 := normalizeNotes notes
    ⟨notes.length, countDet notes2, countPas notes2, countProm notes2,
      some ((((countProm notes2 : ℚ) - (countDet notes2 : ℚ)) / (notes.length : ℚ)) * 100)⟩

/-! ## gen_kano_data.py — static NPS block (lines 142-162) -/

/-- One `nps_static[s]` record: nps, media, n, prom, neu, detr. -/
structure NpsStatic where
  nps : ℚ
  media : ℚ
  n : ℕ
  prom : ℚ
  neu : ℚ
  detr : ℚ
deriving DecidableEq, Repr

/-- The body of the `nps_static` loop in gen_kano_data.py for one shopping's
target-topic notes (the dataframe is already normalized at lines 38-39, so no
rescaling happens here).  `none` models `if s_df.empty: continue`. -/
def nps_static_entry (notes : List ℚ) : Option NpsStatic :=
  if notes.length = 0 then none
  else
    some ⟨roundTo 1 ((((countProm notes : ℚ) - (countDet notes : ℚ)) / (notes.length : ℚ)) * 100),
      roundTo 2 (meanQ notes),
      notes.length,
      roundTo 1 (((countProm notes : ℚ) / (notes.length : ℚ)) * 100),
      roundTo 1 (((countPas notes : ℚ) / (notes.length : ℚ)) * 100),
      roundTo 1 (((countDet notes : ℚ) / (notes.length : ℚ)) * 100)⟩

/-! ## gen_kano_data.py — classifier and topic statistics (lines 54-116) -/

/-- The distinguished target topic, `TARGET = 'O Shopping'`. -/
def TARGET : String := "O Shopping"

/-- The category logic of gen_kano_data.py lines 101-105, as a function of the
(unrounded) mean and a correlation value `r`. -/
def classify (mean r : ℚ) : String :=
  if r < 0 then "rev"
  else if 8.5 ≤ mean ∧ r < 0.2 then "bas"
  else if 0.25 ≤ r then "enc"
  else if mean < 8 ∧ r < 0.2 then "crit"
  else "per"

/-- The five ordered rules of spec §4.5, written from the spec's words: the
first four as (predicate, category) pairs, the fifth being the default of
`firstMatch`.  Used only to compare `classify` against the spec. -/
def specRules : List (((ℚ × ℚ) → Bool) × String) :=
  [ (fun p => decide (p.2 < 0), "rev"),
    (fun p => decide (8.5 ≤ p.1) && decide (p.2 < 0.2), "bas"),
    (fun p => decide (0.25 ≤ p.2), "enc"),
    (fun p => decide (p.1 < 8) && decide (p.2 < 0.2), "crit") ]

/-- First-match evaluation of an ordered rule list (spec §4.5 / §9), with
default category "per". -/
def firstMatch : List (((ℚ × ℚ) → Bool) × String) → (ℚ × ℚ) → String
  | [], _ => "per"
  | (q, c) :: rest, p => if q p then c else firstMatch rest p

/-- One row of the pivot table (`pivot_table(index='ResponseID',
columns='Tema', values='Nota', aggfunc='mean')` plus the joined
`ShoppingCode`): a respondent profile mapping topics to scores. -/
structure Profile where
  responseID : ℕ
  shoppingCode : String
  scores : List (String × ℚ)
deriving DecidableEq, Repr

/-- Score of a profile for a topic; `none` is the pivot's `NaN`. -/
def Profile.score (p : Profile) (t : String) : Option ℚ :=
  (p.scores.find? (fun s => s.1 == t)).map (fun s => s.2)

/-- `valid = df_sub[[t, TARGET]].dropna()` (line 77): the paired
(topic score, target score) samples over respondents having both. -/
def pairedValid (profiles : List Profile) (t : String) : List (ℚ × ℚ) :=
  profiles.filterMap (fun p =>
    match p.score t, p.score TARGET with
    | some a, some b => some (a, b)
    | _, _ => none)

/-- Σ x over the paired sample. -/
def sumX (ps : List (ℚ × ℚ)) : ℚ := (ps.map (fun p => p.1)).sum

/-- Σ y over the paired sample. -/
def sumY (ps : List (ℚ × ℚ)) : ℚ := (ps.map (fun p => p.2)).sum

/-- Σ x·y over the paired sample. -/
def sumXY (ps : List (ℚ × ℚ)) : ℚ := (ps.map (fun p => p.1 * p.2)).sum

/-- Σ x² over the paired sample. -/
def sumXX (ps : List (ℚ × ℚ)) : ℚ := (ps.map (fun p => p.1 * p.1)).sum

/-- Σ y² over the paired sample. -/
def sumYY (ps : List (ℚ × ℚ)) : ℚ := (ps.map (fun p => p.2 * p.2)).sum

/-- n·Σxy − Σx·Σy: the numerator of Pearson's r (its sign is the sign
of r). -/
def corrNum (ps : List (ℚ × ℚ)) : ℚ :=
  (ps.length : ℚ) * sumXY ps - sumX ps * sumY ps

/-- n·Σx² − (Σx)²: n² times the variance of the first coordinates. -/
def varNumX (ps : List (ℚ × ℚ)) : ℚ :=
  (ps.length : ℚ) * sumXX ps - sumX ps * sumX ps

/-- n·Σy² − (Σy)²: n² times the variance of the second coordinates. -/
def varNumY (ps : List (ℚ × ℚ)) : ℚ :=
  (ps.length : ℚ) * sumYY ps - sumY ps * sumY ps

/-- Whether `valid[t].corr(valid[TARGET])` is a number rather than `NaN`:
pandas returns `NaN` exactly when either vector has zero variance (this also
covers samples of size < 2).  Pearson's r equals
`corrNum / √(varNumX · varNumY)` when defined. -/
def corrDefined (ps : List (ℚ × ℚ)) : Bool :=
  !(decide (varNumX ps = 0) || decide (varNumY ps = 0))

/-- Decides `a ≤ q / √D` for `D > 0` by sign analysis and squaring (both
sides of `a·√D ≤ q` are compared via their squares once signs agree). -/
def leDivSqrt (a q D : ℚ) : Bool :=
  if 0 ≤ q then decide (a ≤ 0) || decide (a * a * D ≤ q * q)
  else decide (a < 0) && decide (q * q ≤ a * a * D)

/-- `r < c` where `r = q/√D` when `ok`, and `NaN` otherwise (every comparison
against `NaN` is false). -/
def rLtB (ok : Bool) (q D c : ℚ) : Bool := ok && !(leDivSqrt c q D)

/-- `r >= c` where `r = q/√D` when `ok`, and `NaN` otherwise. -/
def rGeB (ok : Bool) (q D c : ℚ) : Bool := ok && leDivSqrt c q D

/-- gen_kano_data.py lines 101-105 as executed on the float `r` produced by
pandas, which may be `NaN`: each comparison is the `NaN`-aware form of the
source's `r < 0`, `r < 0.2`, `r >= 0.25`. -/
def catOf (mean : ℚ) (ok : Bool) (q D : ℚ) : String :=
  if rLtB ok q D 0 then "rev"
  else if decide (8.5 ≤ mean) && rLtB ok q D 0.2 then "bas"
  else if rGeB ok q D 0.25 then "enc"
  else if decide (mean < 8) && rLtB ok q D 0.2 then "crit"
  else "per"

/-- `round(r, 3)` for `r = q/√D ∈ [-1, 1]` (Cauchy-Schwarz), i.e.
`⌊1000·r + 1/2⌋ / 1000`: the floor is recovered by counting the candidate
half-integer thresholds `m - 1/2`, `m ∈ [-1000, 1000]`, lying below
`1000·r`. -/
def roundCorr3 (q D : ℚ) : ℚ :=
  (((List.range 2001).countP
      (fun i => leDivSqrt ((i : ℚ) - 1000 - 1/2) (1000 * q) D) : ℚ) - 1001) / 1000

/-- One topic statistic as appended at lines 107-114; fields in source order:
t, m, nps, r, n, cat. -/
structure TopicStat where
  t : String
  m : ℚ
  nps : ℚ
  r : ℚ
  n : ℕ
  cat : String
deriving DecidableEq, Repr

/-- The body of the `for t in themes` loop of `calculate_stats` for one topic
that passed the sample-size gate (lines 77-114). -/
def statFor (profiles : List Profile) (t : String) : TopicStat :=
  let valid := pairedValid profiles t
  let xs := valid.map (fun p => p.1)
  let ok := corrDefined valid
  let q := corrNum valid
  let D := varNumX valid * varNumY valid
  let mean := meanQ xs
  ⟨t, roundTo 2 mean,
    roundTo 1 ((((countProm xs : ℚ) - (countDet xs : ℚ)) / (valid.length : ℚ)) * 100),
    if ok then roundCorr3 q D else 0,
    valid.length,
    catOf mean ok q D⟩

/-- The `for t in themes` loop of `calculate_stats` (lines 73-116): skip a
topic absent from the pivot's columns, skip when the paired sample has fewer
than 5 respondents, otherwise append its statistic. -/
def statsLoop (cols : List String) (profiles : List Profile) : List String → List TopicStat
  | [] => []
  | t :: rest =>
    if t ∈ cols then
      if (pairedValid profiles t).length < 5 then statsLoop cols profiles rest
      else statFor profiles t :: statsLoop cols profiles rest
    else statsLoop cols profiles rest

/-- gen_kano_data.py `calculate_stats(df_sub, themes)` (lines 60-116): the
pivot sub-dataframe is abstracted to its column list and its profile rows.
Returns `[]` when the target column is missing (lines 62-63). -/
def calculate_stats (cols : List String) (profiles : List Profile)
    (themes : List String) : List TopicStat :=
  if TARGET ∈ cols then statsLoop cols profiles themes else []

/-- `themes = [c for c in pivot.columns if c not in [TARGET, 'ShoppingCode']]`
(line 57). -/
def themesOf (cols : List String) : List String :=
  cols.filter (fun c => !(c == TARGET || c == "ShoppingCode"))

/-! ## Raw response rows and the selection pipelines -/

/-- One row of the long-format input: ResponseID, Pesquisa, Tema, Momento,
ShoppingCode, Nota. -/
structure Row where
  responseID : ℕ
  pesquisa : String
  tema : String
  momento : String
  shoppingCode : String
  nota : ℚ
deriving DecidableEq, Repr

/-- Helper for `containsSub`: does `needle` start at some position of the
second list? -/
def containsSubAux (needle : List Char) : List Char → Bool
  | [] => needle.isEmpty
  | c :: rest => needle.isPrefixOf (c :: rest) || containsSubAux needle rest

/-- Python's `needle in hay` on strings. -/
def containsSub (needle hay : String) : Bool := containsSubAux needle.data hay.data

/-- gen_kano_data.py `map_period` (lines 10-13). -/
def map_period (p : String) : String := if containsSub "2025" p then "2025" else p

/-- The `map_period` of gen_lojistas_js_final.py lines 12-17, identical text
in gen_nps_matrix_final.py lines 11-16. -/
def map_period3 (p : String) : String :=
  if containsSub "2024/1" p then "2024/1"
  else if containsSub "2024/2" p then "2024/2"
  else if containsSub "2025" p then "2025"
  else p

/-- `df_2025_raw = df[df['Period'] == '2025']` (gen_kano_data.py line 18). -/
def rows2025raw (rows : List Row) : List Row :=
  rows.filter (fun r => map_period r.pesquisa == "2025")

/-- Membership in `valid_ids` (gen_kano_data.py line 21): the respondent has a
target-topic row with `Momento == 'Fim'` inside the 2025 filter. -/
def valid_ids_mem (rows : List Row) (id : ℕ) : Bool :=
  (rows2025raw rows).any
    (fun r => r.responseID == id && r.tema == TARGET && r.momento == "Fim")

/-- gen_kano_data.py lines 26-35: restrict to valid respondents, then keep a
row iff it is the finished target-topic row or belongs to another topic. -/
def df_2025 (rows : List Row) : List Row :=
  ((rows2025raw rows).filter (fun r => valid_ids_mem rows r.responseID)).filter
    (fun r => (r.tema == TARGET && r.momento == "Fim") || !(r.tema == TARGET))

/-- `drop_duplicates()` on (ResponseID, ShoppingCode) pairs keeping first
occurrences (gen_kano_data.py line 44, before `to_dict`). -/
def pairsDedupGo (seen : List (ℕ × String)) : List (ℕ × String) → List (ℕ × String)
  | [] => []
  | p :: ps => if p ∈ seen then pairsDedupGo seen ps else p :: pairsDedupGo (p :: seen) ps

/-- The `shop_map` dict of gen_kano_data.py line 44: distinct
(ResponseID, ShoppingCode) pairs are inserted in order, later pairs
overwriting earlier ones for the same key, so the value is the last matching
deduplicated pair. -/
def shop_map_lookup (l : List Row) (id : ℕ) : Option String :=
  (((pairsDedupGo [] (l.map (fun r => (r.responseID, r.shoppingCode)))).filter
      (fun p => p.1 == id)).getLast?).map (fun p => p.2)

/-- The `s_data` roster selection of gen_kano_data.py lines 180-183: rows of
`df_2025` whose respondent is in the pivot with ShoppingCode `s` and whose
topic is the target topic. -/
def s_data (rows : List Row) (s : String) : List Row :=
  (df_2025 rows).filter
    (fun r => (shop_map_lookup (df_2025 rows) r.responseID == some s) && r.tema == TARGET)

/-- `drop_duplicates(subset=['Period', 'ResponseID'], keep='first')`:
keep the first row for each (mapped period, ResponseID) key. -/
def dedupPRGo (seen : List (String × ℕ)) : List Row → List Row
  | [] => []
  | r :: rs =>
    if (map_period3 r.pesquisa, r.responseID) ∈ seen then dedupPRGo seen rs
    else r :: dedupPRGo ((map_period3 r.pesquisa, r.responseID) :: seen) rs

/-- gen_nps_matrix_final.py lines 8-36: target-topic rows with
`Momento == 'Fim'`, de-duplicated by (Period, ResponseID) keeping the first.
(gen_lojistas_js_final.py lines 9-26 build the identical `df_final`.) -/
def df_fim (rows : List Row) : List Row :=
  dedupPRGo [] ((rows.filter (fun r => r.tema == TARGET)).filter (fun r => r.momento == "Fim"))

/-- Restriction of a row list to one mapped period. -/
def periodFilter (rows : List Row) (p : String) : List Row :=
  rows.filter (fun r => map_period3 r.pesquisa == p)

/-- The distinct ShoppingCode group keys of `df_fim` (groupby keys of
gen_nps_matrix_final.py line 63). -/
def shopsOf (rows : List Row) : List String :=
  ((df_fim rows).map (fun r => r.shoppingCode)).dedup

/-- One (ShoppingCode, Period) group of gen_nps_matrix_final.py line 63. -/
def entity_rows (rows : List Row) (s : String) (p : String) : List Row :=
  (periodFilter (df_fim rows) p).filter (fun r => r.shoppingCode == s)

/-- The portfolio row for period `p` (gen_nps_matrix_final.py line 66):
`get_metrics` over the whole period group of `df_fim`. -/
def portfolio_row (rows : List Row) (p : String) : MRow :=
  get_metrics ((periodFilter (df_fim rows) p).map (fun r => r.nota))

/-- The union of all entities' rows for period `p`: each distinct ShoppingCode
contributes its (entity, period) group. -/
def pooledEntityRows (rows : List Row) (p : String) : List Row :=
  (shopsOf rows).flatMap (fun s => entity_rows rows s p)

/-! ## Concrete pivot fixtures used by witnesses and counterexamples -/

/-- Five respondents, topic "A" paired with the target on all five, topic "B"
on only four. -/
def ps5 : List Profile :=
  [⟨1, "S", [("A", 8), ("B", 9), ("O Shopping", 1)]⟩,
   ⟨2, "S", [("A", 8), ("B", 9), ("O Shopping", 2)]⟩,
   ⟨3, "S", [("A", 8), ("B", 9), ("O Shopping", 3)]⟩,
   ⟨4, "S", [("A", 8), ("B", 9), ("O Shopping", 4)]⟩,
   ⟨5, "S", [("A", 8), ("O Shopping", 5)]⟩]

/-- Five respondents whose topic "A" scores are constant (zero variance, so
the correlation with the target is undefined) with mean 9 ≥ 8.5. -/
def ps7 : List Profile :=
  [⟨1, "S", [("A", 9), ("O Shopping", 1)]⟩,
   ⟨2, "S", [("A", 9), ("O Shopping", 2)]⟩,
   ⟨3, "S", [("A", 9), ("O Shopping", 3)]⟩,
   ⟨4, "S", [("A", 9), ("O Shopping", 4)]⟩,
   ⟨5, "S", [("A", 9), ("O Shopping", 5)]⟩]

/-- Five respondents whose topic "B" scores are constant at 8 (zero
variance). -/
def ps7w : List Profile :=
  [⟨1, "S", [("B", 8), ("O Shopping", 1)]⟩,
   ⟨2, "S", [("B", 8), ("O Shopping", 2)]⟩,
   ⟨3, "S", [("B", 8), ("O Shopping", 3)]⟩,
   ⟨4, "S", [("B", 8), ("O Shopping", 4)]⟩,
   ⟨5, "S", [("B", 8), ("O Shopping", 5)]⟩]

/-- Five respondents whose topic "A" scores are constant at 7. -/
def ps10 : List Profile :=
  [⟨1, "S", [("A", 7), ("O Shopping", 1)]⟩,
   ⟨2, "S", [("A", 7), ("O Shopping", 2)]⟩,
   ⟨3, "S", [("A", 7), ("O Shopping", 3)]⟩,
   ⟨4, "S", [("A", 7), ("O Shopping", 4)]⟩,
   ⟨5, "S", [("A", 7), ("O Shopping", 5)]⟩]

/-- Four 2025 rows: respondent 1 never finished the target survey (started it
and answered another topic), respondent 2 finished it. -/
def rows4 : List Row :=
  [⟨1, "P 2025", "O Shopping", "Inicio", "S1", 5⟩,
   ⟨1, "P 2025", "Limpeza", "Unico", "S1", 7⟩,
   ⟨2, "P 2025", "O Shopping", "Fim", "S1", 9⟩,
   ⟨2, "P 2025", "Limpeza", "Unico", "S1", 7⟩]

/-- Four finished target-topic rows over two shoppings in the 2025 period:
S1 scores [10], S2 scores [10, 0, 0]. -/
def rows8 : List Row :=
  [⟨1, "2025", "O Shopping", "Fim", "S1", 10⟩,
   ⟨2, "2025", "O Shopping", "Fim", "S2", 10⟩,
   ⟨3, "2025", "O Shopping", "Fim", "S2", 0⟩,
   ⟨4, "2025", "O Shopping", "Fim", "S2", 0⟩]

end NpsPipeline

namespace NpsPipeline

/-! ## Claims -/

/-- Claim C1: the topic category is obtained by evaluating the five rules in
order with first match winning — reverse if r < 0, basic if mean ≥ 8.5 and
r < 0.2, exciter if r ≥ 0.25, critical if mean < 8 and r < 0.2, otherwise
performance — and in particular (mean, r) = (9, -0.1) classifies as reverse,
not basic. -/
theorem classify_is_ordered_first_match :
    (∀ mean r : ℚ, classify mean r = firstMatch specRules (mean, r))
      ∧ classify 9 (-0.1) = "rev" ∧ classify 9 (-0.1) ≠ "bas" := by
  refine ⟨?_, by with_unfolding_all decide, by with_unfolding_all decide⟩
  intro mean r
  simp only [classify, specRules, firstMatch, Bool.and_eq_true, decide_eq_true_eq]

/-- Witness for C1 at a concrete input. -/
theorem classify_is_ordered_first_match_witness :
    classify 8.5 0.1 = firstMatch specRules (8.5, 0.1) :=
  classify_is_ordered_first_match.1 8.5 0.1

/-- Claim C2: on a non-empty list of (already normalized) scores,
`calculate_metrics` returns the NPS record whose score is
((promoters − detractors)/total)·100 rounded to 1 decimal with bands
promoter ≥ 9, passive ∈ [7, 8], detractor ≤ 6; in particular on
[10,10,10,9,8,8,7,6,5,0] it reports NPS 10.0 with 4 promoters, 3 passives,
3 detractors, and (via the kano static block) mean 7.3. -/
theorem calculate_metrics_formula :
    (∀ (notes : List ℚ) (p : String), notes ≠ [] → maxNote notes ≤ 10 →
      calculate_metrics notes p =
        some ⟨p,
          roundTo 1 ((((countProm notes : ℚ) - (countDet notes : ℚ)) / (notes.length : ℚ)) * 100),
          notes.length,
          roundTo 1 (((countProm notes : ℚ) / (notes.length : ℚ)) * 100),
          roundTo 1 (((countPas notes : ℚ) / (notes.length : ℚ)) * 100),
          roundTo 1 (((countDet notes : ℚ) / (notes.length : ℚ)) * 100),
          countProm notes, countPas notes, countDet notes⟩)
    ∧ calculate_metrics [10,10,10,9,8,8,7,6,5,0] "2025" =
        some ⟨"2025", 10, 10, 40, 30, 30, 4, 3, 3⟩
    ∧ nps_static_entry [10,10,10,9,8,8,7,6,5,0] = some ⟨10, 73/10, 10, 40, 30, 30⟩ := by
  refine ⟨?_, by with_unfolding_all decide, by with_unfolding_all decide⟩
  intro notes p hne hmax
  have hlen : ¬(notes.length = 0) := fun h => hne (List.length_eq_zero.mp h)
  have hnorm : normalizeNotes notes = notes := by
    unfold normalizeNotes
    rw [if_neg (not_lt.mpr hmax)]
  unfold calculate_metrics
  rw [if_neg hlen, hnorm]

/-- Witness for C2 at a concrete input. -/
theorem calculate_metrics_formula_witness :
    calculate_metrics [9, 5] "w" = some ⟨"w", 0, 2, 50, 0, 50, 1, 0, 1⟩ := by
  have h := calculate_metrics_formula.1 [9, 5] "w"
    (by with_unfolding_all decide) (by with_unfolding_all decide)
  exact h.trans (by with_unfolding_all decide)

/-- Claim C3: the normalizer divides every score of a scope by 10 when the
scope's maximum exceeds 10 and leaves every score unchanged otherwise; the
condition is a single predicate on the scope maximum, applied uniformly at
every index, and the spec's two examples (max 95 rescaled, max 10 untouched)
hold. -/
theorem normalizer_scope_rule :
    (∀ notes : List ℚ, 10 < maxNote notes → normalizeNotes notes = notes.map (fun x => x / 10))
    ∧ (∀ notes : List ℚ, maxNote notes ≤ 10 → normalizeNotes notes = notes)
    ∧ (∀ (notes : List ℚ) (i : ℕ), i < notes.length →
        (normalizeNotes notes).getD i 0 =
          if 10 < maxNote notes then notes.getD i 0 / 10 else notes.getD i 0)
    ∧ normalizeNotes [95, 5] = [19/2, 1/2]
    ∧ normalizeNotes [10, 5] = [10, 5] := by
  refine ⟨?_, ?_, ?_, by with_unfolding_all decide, by with_unfolding_all decide⟩
  · intro notes h
    unfold normalizeNotes
    rw [if_pos h]
  · intro notes h
    unfold normalizeNotes
    rw [if_neg (not_lt.mpr h)]
  · intro notes i hi
    unfold normalizeNotes
    by_cases h : 10 < maxNote notes
    · rw [if_pos h, if_pos h]
      simp [List.getD, List.getElem?_map, hi, List.getElem?_eq_getElem]
    · rw [if_neg h, if_neg h]

/-- Witness for C3 at a concrete input and index. -/
theorem normalizer_scope_rule_witness :
    (normalizeNotes [(95:ℚ), 5]).getD 0 0 =
      if 10 < maxNote [(95:ℚ), 5] then List.getD [(95:ℚ), 5] 0 0 / 10
      else List.getD [(95:ℚ), 5] 0 0 :=
  normalizer_scope_rule.2.2.1 [95, 5] 0 (by decide)

/-- Claim C9: the promoter/passive/detractor bands are pairwise disjoint but
not exhaustive — the three counts sum to at most the sample size, and a
normalized fractional score such as 6.5 (or 8.5) is in no band, so the sum can
be strictly below the total. -/
theorem bands_disjoint_not_exhaustive :
    (∀ x : ℚ, ¬(9 ≤ x ∧ (7 ≤ x ∧ x ≤ 8)) ∧ ¬(9 ≤ x ∧ x ≤ 6) ∧ ¬((7 ≤ x ∧ x ≤ 8) ∧ x ≤ 6))
    ∧ (∀ notes : List ℚ, countProm notes + countPas notes + countDet notes ≤ notes.length)
    ∧ normalizeNotes [65, 95] = [13/2, 19/2]
    ∧ countProm [(13:ℚ)/2] + countPas [(13:ℚ)/2] + countDet [(13:ℚ)/2] = 0
    ∧ countProm [(17:ℚ)/2] + countPas [(17:ℚ)/2] + countDet [(17:ℚ)/2] = 0 := by
  refine ⟨?_, ?_, by with_unfolding_all decide,
    by with_unfolding_all decide, by with_unfolding_all decide⟩
  · intro x
    refine ⟨fun h => ?_, fun h => ?_, fun h => ?_⟩
    · rcases h with ⟨h1, _, h3⟩; linarith
    · rcases h with ⟨h1, h2⟩; linarith
    · rcases h with ⟨⟨h1, _⟩, h3⟩; linarith
  · intro notes
    induction notes with
    | nil => simp [countProm, countPas, countDet]
    | cons x xs ih =>
      simp only [countProm, countPas, countDet, List.countP_cons, List.length_cons] at ih ⊢
      rcases le_or_lt x 6 with h6 | h6
      · have h7 : ¬(7 ≤ x) := by linarith
        have h9 : ¬(9 ≤ x) := by linarith
        simp [h6, h7, h9]
        omega
      · have h6n : ¬(x ≤ 6) := by linarith
        rcases le_or_lt x 8 with h8 | h8
        · have h9 : ¬(9 ≤ x) := by linarith
          by_cases h7 : 7 ≤ x <;> simp [h6n, h7, h8, h9] <;> omega
        · have h8n : ¬(x ≤ 8) := by linarith
          by_cases h9 : 9 ≤ x <;> simp [h6n, h8n, h9] <;> omega

/-- Witness for C9 at a concrete score and list. -/
theorem bands_disjoint_not_exhaustive_witness :
    ¬((9:ℚ) ≤ 5 ∧ (7 ≤ (5:ℚ) ∧ (5:ℚ) ≤ 8)) ∧
      countProm [(5:ℚ)] + countPas [(5:ℚ)] + countDet [(5:ℚ)] ≤ 1 :=
  ⟨(bands_disjoint_not_exhaustive.1 5).1, bands_disjoint_not_exhaustive.2.1 [5]⟩

/-- Rounding to one decimal moves a rational by at most 1/20. -/
theorem abs_roundTo_one_sub_le (q : ℚ) : |roundTo 1 q - q| ≤ 1/20 := by
  unfold roundTo
  have h := abs_sub_round (q * 10)
  have h10 : ((10:ℚ) ^ (1:ℕ)) = 10 := by norm_num
  rw [h10]
  have e : ((round (q * 10) : ℤ) : ℚ) / 10 - q = -((q * 10 - ((round (q * 10) : ℤ) : ℚ)) / 10) := by
    ring
  rw [e, abs_neg, abs_div, abs_of_pos (by norm_num : (0:ℚ) < 10)]
  linarith

/-- `normalizeNotes` preserves the number of scores. -/
theorem normalizeNotes_length (notes : List ℚ) :
    (normalizeNotes notes).length = notes.length := by
  unfold normalizeNotes
  split
  · simp
  · rfl

/-- When every score lies in one of the three bands, the band counts
partition the sample. -/
theorem bands_partition :
    ∀ l : List ℚ, (∀ x ∈ l, x ≤ 6 ∨ (7 ≤ x ∧ x ≤ 8) ∨ 9 ≤ x) →
      countProm l + countPas l + countDet l = l.length := by
  intro l
  induction l with
  | nil => intro _; simp [countProm, countPas, countDet]
  | cons x xs ih =>
    intro h
    have hx := h x (List.mem_cons_self x xs)
    have ih2 := ih (fun y hy => h y (List.mem_cons_of_mem x hy))
    simp only [countProm, countPas, countDet, List.countP_cons, List.length_cons] at ih2 ⊢
    rcases hx with h6 | ⟨h7, h8⟩ | h9
    · have h7n : ¬(7 ≤ x) := by linarith
      have h9n : ¬(9 ≤ x) := by linarith
      simp [h6, h7n, h9n]
      omega
    · have h6n : ¬(x ≤ 6) := by linarith
      have h9n : ¬(9 ≤ x) := by linarith
      simp [h6n, h7, h8, h9n]
      omega
    · have h6n : ¬(x ≤ 6) := by linarith
      have h8n : ¬(x ≤ 8) := by linarith
      simp [h6n, h8n, h9]
      omega

/-- Three one-decimal roundings of percentages that exactly partition a
non-empty total sum to 100 within 3/20. -/
theorem three_pct_roundings (cP cPa cD T : ℕ) (hT : T ≠ 0) (hsum : cP + cPa + cD = T) :
    |roundTo 1 (((cP:ℚ) / (T:ℚ)) * 100) + roundTo 1 (((cPa:ℚ) / (T:ℚ)) * 100)
        + roundTo 1 (((cD:ℚ) / (T:ℚ)) * 100) - 100| ≤ 3/20 := by
  have hTQ : (T:ℚ) ≠ 0 := Nat.cast_ne_zero.mpr hT
  have hcast : (cP:ℚ) + (cPa:ℚ) + (cD:ℚ) = (T:ℚ) := by exact_mod_cast hsum
  have hx : ((cP:ℚ) / (T:ℚ)) * 100 + ((cPa:ℚ) / (T:ℚ)) * 100 + ((cD:ℚ) / (T:ℚ)) * 100 = 100 := by
    field_simp
    linarith
  have e1 := abs_roundTo_one_sub_le (((cP:ℚ) / (T:ℚ)) * 100)
  have e2 := abs_roundTo_one_sub_le (((cPa:ℚ) / (T:ℚ)) * 100)
  have e3 := abs_roundTo_one_sub_le (((cD:ℚ) / (T:ℚ)) * 100)
  have key : roundTo 1 (((cP:ℚ) / (T:ℚ)) * 100) + roundTo 1 (((cPa:ℚ) / (T:ℚ)) * 100)
      + roundTo 1 (((cD:ℚ) / (T:ℚ)) * 100) - 100
      = (roundTo 1 (((cP:ℚ) / (T:ℚ)) * 100) - ((cP:ℚ) / (T:ℚ)) * 100)
        + (roundTo 1 (((cPa:ℚ) / (T:ℚ)) * 100) - ((cPa:ℚ) / (T:ℚ)) * 100)
        + (roundTo 1 (((cD:ℚ) / (T:ℚ)) * 100) - ((cD:ℚ) / (T:ℚ)) * 100) := by
    linarith
  rw [key]
  exact le_trans (abs_add_three _ _ _) (by linarith)

/-- Claim C6 counterexample: on raw scores [65, 95] (normalized to 6.5 and
9.5) the three reported percentages sum to 50, not 100 within rounding. -/
theorem pct_sum_not_always_100 :
    (calculate_metrics [65, 95] "p").map (fun m => m.prom_pct + m.pass_pct + m.det_pct) = some 50
    ∧ ¬(|(50:ℚ) - 100| ≤ 3/20) := by
  constructor
  · with_unfolding_all decide
  · intro h
    rw [abs_of_nonpos (by norm_num : (50:ℚ) - 100 ≤ 0)] at h
    linarith

/-- Claim C6 amended: the reported promoter/passive/detractor percentages are
each band count over the total times 100 rounded to 1 decimal, and — provided
every normalized score falls in one of the three bands (in particular for all
integer scores on the 0-10 scale) — their sum equals 100 up to the three
rounding errors (within 3/20).  Without that proviso the bands are not
exhaustive and the sum can fall short (see the counterexample). -/
theorem pct_sum_within_rounding_of_100 :
    ∀ (notes : List ℚ) (p : String),
      notes ≠ [] →
      (∀ x ∈ normalizeNotes notes, x ≤ 6 ∨ (7 ≤ x ∧ x ≤ 8) ∨ 9 ≤ x) →
      ∃ m, calculate_metrics notes p = some m
        ∧ |m.prom_pct + m.pass_pct + m.det_pct - 100| ≤ 3/20 := by
  intro notes p hne hband
  have hlen : ¬(notes.length = 0) := fun h => hne (List.length_eq_zero.mp h)
  refine ⟨⟨p,
    roundTo 1 ((((countProm (normalizeNotes notes) : ℚ) - (countDet (normalizeNotes notes) : ℚ))
      / (notes.length : ℚ)) * 100),
    notes.length,
    roundTo 1 (((countProm (normalizeNotes notes) : ℚ) / (notes.length : ℚ)) * 100),
    roundTo 1 (((countPas (normalizeNotes notes) : ℚ) / (notes.length : ℚ)) * 100),
    roundTo 1 (((countDet (normalizeNotes notes) : ℚ) / (notes.length : ℚ)) * 100),
    countProm (normalizeNotes notes), countPas (normalizeNotes notes),
    countDet (normalizeNotes notes)⟩, ?_, ?_⟩
  · unfold calculate_metrics
    rw [if_neg hlen]
  · have hpart : countProm (normalizeNotes notes) + countPas (normalizeNotes notes)
        + countDet (normalizeNotes notes) = notes.length := by
      rw [bands_partition (normalizeNotes notes) hband, normalizeNotes_length]
    exact three_pct_roundings _ _ _ _ hlen hpart

/-- Witness for the amended C6 at a concrete input. -/
theorem pct_sum_within_rounding_of_100_witness :
    |(50:ℚ) + 0 + 50 - 100| ≤ 3/20 := by
  obtain ⟨m, hm, hb⟩ := pct_sum_within_rounding_of_100 [10, 0] "w"
    (by with_unfolding_all decide) (by with_unfolding_all decide)
  have hmv : m = ⟨"w", 0, 2, 50, 0, 50, 1, 0, 1⟩ :=
    Option.some.inj (hm.symm.trans
      (by with_unfolding_all decide :
        calculate_metrics [(10:ℚ), 0] "w" = some ⟨"w", 0, 2, 50, 0, 50, 1, 0, 1⟩))
  rw [hmv] at hb
  exact hb

/-- Every statistic emitted by the themes loop comes from a theme that is a
pivot column with a paired sample of at least 5. -/
theorem mem_statsLoop (cols : List String) (profiles : List Profile) :
    ∀ (themes : List String) (st : TopicStat), st ∈ statsLoop cols profiles themes →
      ∃ t, t ∈ themes ∧ t ∈ cols ∧ 5 ≤ (pairedValid profiles t).length
        ∧ st = statFor profiles t := by
  intro themes
  induction themes with
  | nil => intro st h; simp [statsLoop] at h
  | cons t rest ih =>
    intro st h
    simp only [statsLoop] at h
    by_cases hc : t ∈ cols
    · rw [if_pos hc] at h
      by_cases h5 : (pairedValid profiles t).length < 5
      · rw [if_pos h5] at h
        obtain ⟨u, hu1, hu2, hu3, hu4⟩ := ih st h
        exact ⟨u, List.mem_cons_of_mem _ hu1, hu2, hu3, hu4⟩
      · rw [if_neg h5] at h
        rcases List.mem_cons.mp h with heq | h2
        · exact ⟨t, List.mem_cons_self t rest, hc, not_lt.mp h5, heq⟩
        · obtain ⟨u, hu1, hu2, hu3, hu4⟩ := ih st h2
          exact ⟨u, List.mem_cons_of_mem _ hu1, hu2, hu3, hu4⟩
    · rw [if_neg hc] at h
      obtain ⟨u, hu1, hu2, hu3, hu4⟩ := ih st h
      exact ⟨u, List.mem_cons_of_mem _ hu1, hu2, hu3, hu4⟩

/-- Conversely, a theme in a pivot column with at least 5 paired respondents
is emitted by the themes loop. -/
theorem statsLoop_any (cols : List String) (profiles : List Profile) :
    ∀ (themes : List String) (t : String), t ∈ themes → t ∈ cols →
      5 ≤ (pairedValid profiles t).length →
      (statsLoop cols profiles themes).any (fun st => st.t == t) = true := by
  intro themes
  induction themes with
  | nil => intro t h; simp at h
  | cons u rest ih =>
    intro t ht hc h5
    rcases List.mem_cons.mp ht with heq | hrest
    · subst heq
      simp only [statsLoop, if_pos hc, if_neg (not_lt.mpr h5)]
      simp [statFor]
    · by_cases hcu : u ∈ cols
      · by_cases h5u : (pairedValid profiles u).length < 5
        · simp only [statsLoop, if_pos hcu, if_pos h5u]
          exact ih t hrest hc h5
        · simp only [statsLoop, if_pos hcu, if_neg h5u]
          rw [List.any_cons, ih t hrest hc h5]
          simp
      · simp only [statsLoop, if_neg hcu]
        exact ih t hrest hc h5

/-- The `NaN`-aware classifier always falls through to the default when the
correlation is undefined. -/
theorem catOf_undefined (mean q D : ℚ) : catOf mean false q D = "per" := by
  unfold catOf rLtB rGeB
  simp

/-- The topic field of an emitted statistic is the topic it was built for. -/
theorem statFor_t (profiles : List Profile) (u : String) : (statFor profiles u).t = u := rfl

/-- The sample-size field of an emitted statistic is the paired-valid
count. -/
theorem statFor_n (profiles : List Profile) (u : String) :
    (statFor profiles u).n = (pairedValid profiles u).length := rfl

/-- Claim C5: for any grouping, a topic statistic is emitted iff the topic is
an analyzed theme whose paired sample (respondents scoring both the topic and
the target) has size at least 5, and the emitted sample size equals the
paired-sample count. -/
theorem topic_emitted_iff_five_paired :
    ∀ (cols themes : List String) (profiles : List Profile) (t : String),
      TARGET ∈ cols → t ∈ cols →
      (((calculate_stats cols profiles themes).any (fun st => st.t == t)) = true
        ↔ (t ∈ themes ∧ 5 ≤ (pairedValid profiles t).length))
      ∧ (∀ st ∈ calculate_stats cols profiles themes,
          st.n = (pairedValid profiles st.t).length) := by
  intro cols themes profiles t hT ht
  constructor
  · constructor
    · intro h
      unfold calculate_stats at h
      rw [if_pos hT] at h
      obtain ⟨st, hmem, heq⟩ := List.any_eq_true.mp h
      obtain ⟨u, hu1, hu2, hu3, hu4⟩ := mem_statsLoop cols profiles themes st hmem
      have h1 : st.t = u := by rw [hu4, statFor_t]
      have h2 : st.t = t := by simpa using heq
      have hut : u = t := h1.symm.trans h2
      exact ⟨hut ▸ hu1, hut ▸ hu3⟩
    · rintro ⟨h1, h2⟩
      unfold calculate_stats
      rw [if_pos hT]
      exact statsLoop_any cols profiles themes t h1 ht h2
  · intro st hmem
    unfold calculate_stats at hmem
    rw [if_pos hT] at hmem
    obtain ⟨u, _, _, _, hst⟩ := mem_statsLoop cols profiles themes st hmem
    rw [hst, statFor_t, statFor_n]

/-- Witness for C5: with exactly 5 paired respondents topic "A" is emitted,
with exactly 4 topic "B" is omitted. -/
theorem topic_emitted_iff_five_paired_witness :
    (calculate_stats ["O Shopping", "A", "B"] ps5 ["A", "B"]).any (fun st => st.t == "A") = true
    ∧ (calculate_stats ["O Shopping", "A", "B"] ps5 ["A", "B"]).any (fun st => st.t == "B")
        = false := by
  constructor
  · exact (topic_emitted_iff_five_paired ["O Shopping", "A", "B"] ["A", "B"] ps5 "A"
      (by decide) (by decide)).1.mpr ⟨by decide, by with_unfolding_all decide⟩
  · have h := (topic_emitted_iff_five_paired ["O Shopping", "A", "B"] ["A", "B"] ps5 "B"
      (by decide) (by decide)).1
    cases hb : (calculate_stats ["O Shopping", "A", "B"] ps5 ["A", "B"]).any
        (fun st => st.t == "B") with
    | false => rfl
    | true => exact absurd (h.mp hb).2 (by with_unfolding_all decide)

/-- Claim C7 counterexample: with a zero-variance topic vector (all "A"
scores 9, mean 9) the emitted correlation field is 0 but the emitted category
is the default "per", whereas the ordered rules at r = 0 give "bas". -/
theorem corr_undefined_counterexample :
    calculate_stats ["O Shopping", "A"] ps7 ["A"] = [⟨"A", 9, 100, 0, 5, "per"⟩]
    ∧ classify 9 0 = "bas"
    ∧ ("per" : String) ≠ "bas" := by
  refine ⟨by with_unfolding_all decide, by with_unfolding_all decide, by decide⟩

/-- Claim C7 amended: when the Pearson correlation of a topic's paired sample
is undefined (zero variance), the emitted correlation field is 0 and the
assigned category is always the default "performance" — the `NaN` comparisons
fail every rule — which coincides with the r = 0 classification only for
8 ≤ mean < 8.5; undefined is never propagated. -/
theorem corr_undefined_gives_zero_and_default :
    ∀ (cols themes : List String) (profiles : List Profile) (st : TopicStat),
      st ∈ calculate_stats cols profiles themes →
      corrDefined (pairedValid profiles st.t) = false →
      st.r = 0 ∧ st.cat = "per" := by
  intro cols themes profiles st hmem hundef
  unfold calculate_stats at hmem
  by_cases hT : TARGET ∈ cols
  · rw [if_pos hT] at hmem
    obtain ⟨u, _, _, _, hst⟩ := mem_statsLoop cols profiles themes st hmem
    have htu : st.t = u := by rw [hst, statFor_t]
    rw [htu] at hundef
    rw [hst]
    constructor <;> simp [statFor, hundef, catOf_undefined]
  · rw [if_neg hT] at hmem
    simp at hmem

/-- Witness for the amended C7 at a concrete zero-variance input. -/
theorem corr_undefined_gives_zero_and_default_witness :
    (⟨"B", 8, 0, 0, 5, "per"⟩ : TopicStat).r = 0
    ∧ (⟨"B", 8, 0, 0, 5, "per"⟩ : TopicStat).cat = "per" :=
  corr_undefined_gives_zero_and_default ["O Shopping", "B"] ["B"] ps7w _
    (by with_unfolding_all decide) (by with_unfolding_all decide)

/-- Claim C10: no emitted topic statistic carries the target topic (or the
entity-code pseudo-column), because the analyzed themes exclude both. -/
theorem target_never_emitted :
    ∀ (cols : List String) (profiles : List Profile) (st : TopicStat),
      st ∈ calculate_stats cols profiles (themesOf cols) →
      st.t ≠ TARGET ∧ st.t ≠ "ShoppingCode" := by
  intro cols profiles st h
  unfold calculate_stats at h
  by_cases hT : TARGET ∈ cols
  · rw [if_pos hT] at h
    obtain ⟨u, hu1, _, _, hst⟩ := mem_statsLoop cols profiles (themesOf cols) st h
    have hself : st.t = u := by rw [hst, statFor_t]
    have hfil := (List.mem_filter.mp hu1).2
    rw [hself]
    simpa [TARGET] using hfil
  · rw [if_neg hT] at h
    simp at h

/-- Witness for C10 at a concrete emitted statistic. -/
theorem target_never_emitted_witness :
    (⟨"A", 7, 0, 0, 5, "per"⟩ : TopicStat).t ≠ TARGET :=
  (target_never_emitted ["O Shopping", "ShoppingCode", "A"] ps10 _
    (by with_unfolding_all decide)).1

/-- Claim C4: a respondent without a finished target-topic response in the
period appears nowhere in the selected 2025 data (hence in none of the
topic-classification outputs derived from it, including the per-shopping
roster selection), while for retained respondents a row survives the
selection iff it is a non-target-topic row or the finished target row. -/
theorem selection_gate :
    ∀ (rows : List Row) (id : ℕ),
      ((¬ ∃ r, r ∈ rows ∧ r.responseID = id ∧ map_period r.pesquisa = "2025"
          ∧ r.tema = TARGET ∧ r.momento = "Fim") →
        (∀ r ∈ df_2025 rows, r.responseID ≠ id)
          ∧ (∀ s : String, ∀ r ∈ s_data rows s, r.responseID ≠ id))
      ∧ (∀ r ∈ rows, map_period r.pesquisa = "2025" →
          valid_ids_mem rows r.responseID = true →
          (r ∈ df_2025 rows ↔ (r.tema ≠ TARGET ∨ r.momento = "Fim"))) := by
  intro rows id
  constructor
  · intro hno
    have hmain : ∀ r ∈ df_2025 rows, r.responseID ≠ id := by
      intro r hr hbad
      have hr1 := List.mem_filter.mp hr
      have hr2 := List.mem_filter.mp hr1.1
      have hv : valid_ids_mem rows r.responseID = true := hr2.2
      rw [hbad] at hv
      unfold valid_ids_mem at hv
      obtain ⟨r2, hr2mem, hr2p⟩ := List.any_eq_true.mp hv
      have hr2raw := List.mem_filter.mp hr2mem
      apply hno
      simp only [Bool.and_eq_true, beq_iff_eq] at hr2p
      refine ⟨r2, hr2raw.1, hr2p.1.1, ?_, hr2p.1.2, hr2p.2⟩
      simpa using hr2raw.2
    refine ⟨hmain, ?_⟩
    intro s r hr
    exact hmain r (List.mem_filter.mp hr).1
  · intro r hrmem hperiod hvalid
    constructor
    · intro hin
      have hcond := (List.mem_filter.mp hin).2
      simp only [Bool.or_eq_true, Bool.and_eq_true, Bool.not_eq_true', beq_iff_eq,
        beq_eq_false_iff_ne] at hcond
      tauto
    · intro hrhs
      apply List.mem_filter.mpr
      refine ⟨List.mem_filter.mpr ⟨List.mem_filter.mpr ⟨hrmem, by simp [hperiod]⟩, hvalid⟩, ?_⟩
      by_cases ht : r.tema = TARGET
      · rcases hrhs with h | h
        · exact absurd ht h
        · simp [ht, h]
      · simp [ht]

/-- Witness for C4: in `rows4`, respondent 1 (no finished target row) is
excluded, and respondent 2's other-topic row survives the selection. -/
theorem selection_gate_witness :
    (⟨2, "P 2025", "O Shopping", "Fim", "S1", 9⟩ : Row).responseID ≠ 1
    ∧ ((⟨2, "P 2025", "Limpeza", "Unico", "S1", 7⟩ : Row) ∈ df_2025 rows4
        ↔ (("Limpeza" : String) ≠ TARGET ∨ ("Unico" : String) = "Fim")) := by
  constructor
  · exact ((selection_gate rows4 1).1 (by with_unfolding_all decide)).1 _
      (by with_unfolding_all decide)
  · exact (selection_gate rows4 2).2 _ (by with_unfolding_all decide)
      (by with_unfolding_all decide) (by with_unfolding_all decide)

/-- The scope maximum is invariant under permutation of the scores. -/
theorem maxNote_perm {l₁ l₂ : List ℚ} (h : l₁.Perm l₂) : maxNote l₁ = maxNote l₂ := by
  unfold maxNote
  haveI : LeftCommutative (max : ℚ → ℚ → ℚ) := ⟨fun a b c => max_left_comm a b c⟩
  exact h.foldr_eq 0

/-- Normalization sends permuted scopes to permuted scopes. -/
theorem normalizeNotes_perm {l₁ l₂ : List ℚ} (h : l₁.Perm l₂) :
    (normalizeNotes l₁).Perm (normalizeNotes l₂) := by
  unfold normalizeNotes
  rw [maxNote_perm h]
  by_cases hc : 10 < maxNote l₂
  · rw [if_pos hc, if_pos hc]
    exact h.map _
  · rw [if_neg hc, if_neg hc]
    exact h

/-- `get_metrics` only depends on the multiset of scores. -/
theorem get_metrics_perm {l₁ l₂ : List ℚ} (h : l₁.Perm l₂) :
    get_metrics l₁ = get_metrics l₂ := by
  have hn := normalizeNotes_perm h
  have hP : countProm (normalizeNotes l₁) = countProm (normalizeNotes l₂) := hn.countP_eq _
  have hPa : countPas (normalizeNotes l₁) = countPas (normalizeNotes l₂) := hn.countP_eq _
  have hD : countDet (normalizeNotes l₁) = countDet (normalizeNotes l₂) := hn.countP_eq _
  simp only [get_metrics, h.length_eq, hP, hPa, hD]

/-- The occurrences of a row in the per-entity partition of a row list: each
group key contributes the row's full count when the key matches its
ShoppingCode. -/
theorem count_flatMap_filter (l : List Row) (a : Row) :
    ∀ ss : List String,
      (ss.flatMap (fun s => l.filter (fun r => r.shoppingCode == s))).count a
        = ss.count a.shoppingCode * l.count a := by
  intro ss
  induction ss with
  | nil => simp
  | cons s ss ih =>
    simp only [List.flatMap_cons, List.count_append, ih, List.count_cons]
    by_cases hs : a.shoppingCode = s
    · have hs2 : s = a.shoppingCode := hs.symm
      subst hs2
      simp [List.count_filter]
      ring
    · have hz : List.count a (l.filter (fun r => r.shoppingCode == s)) = 0 := by
        rw [List.count_eq_zero]
        intro hmem
        exact hs (by simpa using (List.mem_filter.mp hmem).2)
      have hbeq2 : (s == a.shoppingCode) = false := by
        simp only [beq_eq_false_iff_ne]
        exact fun e => hs e.symm
      rw [hz, hbeq2]
      simp

/-- Partitioning a row list by a duplicate-free covering list of group keys
permutes it. -/
theorem flatMap_filter_perm (l : List Row) (ss : List String) (hnd : ss.Nodup)
    (hcov : ∀ r ∈ l, r.shoppingCode ∈ ss) :
    (ss.flatMap (fun s => l.filter (fun r => r.shoppingCode == s))).Perm l := by
  rw [List.perm_iff_count]
  intro a
  rw [count_flatMap_filter l a ss]
  by_cases hm : a ∈ l
  · rw [List.count_eq_one_of_mem hnd (hcov a hm), one_mul]
  · rw [List.count_eq_zero_of_not_mem hm, mul_zero]

/-- Claim C8: the matrix report's portfolio row for a period is the NPS metric
computed over the pooled union of all entities' finished de-duplicated rows
for that period (same N and band counts, same NPS), and on `rows8` it differs
from the average of the per-entity NPS values (0 versus 100/3). -/
theorem portfolio_is_pooled :
    (∀ (rows : List Row) (p : String),
      get_metrics ((pooledEntityRows rows p).map (fun r => r.nota)) = portfolio_row rows p)
    ∧ portfolio_row rows8 "2025" = ⟨4, 2, 0, 2, some 0⟩
    ∧ get_metrics ((entity_rows rows8 "S1" "2025").map (fun r => r.nota)) = ⟨1, 0, 0, 1, some 100⟩
    ∧ get_metrics ((entity_rows rows8 "S2" "2025").map (fun r => r.nota))
        = ⟨3, 2, 0, 1, some (-100/3)⟩
    ∧ ((100 + (-100/3)) / 2 : ℚ) ≠ 0 := by
  refine ⟨?_, by with_unfolding_all decide, by with_unfolding_all decide,
    by with_unfolding_all decide, by with_unfolding_all decide⟩
  intro rows p
  have hperm : (pooledEntityRows rows p).Perm (periodFilter (df_fim rows) p) := by
    apply flatMap_filter_perm
    · exact List.nodup_dedup _
    · intro r hr
      exact List.mem_dedup.mpr
        (List.mem_map_of_mem _ (List.mem_of_mem_filter hr))
  exact get_metrics_perm (hperm.map _)

/-- Witness for C8 at a concrete (empty) input. -/
theorem portfolio_is_pooled_witness :
    get_metrics ((pooledEntityRows [] "x").map (fun r => r.nota)) = portfolio_row [] "x" :=
  portfolio_is_pooled.1 [] "x"

end NpsPipeline
